import Mathlib

/-!
Shallow embedding of the project-management backend (src/backend/server.py).

Modelling conventions:
* Timestamps are exact rationals (seconds since an arbitrary epoch).  Each
  handler receives one `now : Timestamp` standing for the wall-clock instant
  of the write; the several `datetime.now(timezone.utc)` calls inside one
  handler are modelled as that single instant.
* Python float arithmetic is modelled over `ℚ`; Python's `round(x, 2)`
  (banker's rounding on floats) is modelled as `round2` below using Mathlib's
  `round` (half-up).  The spec states that rounding ties are not load-bearing.
* Python truthiness tests on numbers/`None` are modelled explicitly: the
  expression `round(avg, 2) if avg else None` maps `none` and `some 0` to
  `none` (see `avgField`).
* MongoDB documents for tasks are modelled by the `Task` structure; the
  metrics handlers read raw documents with `task.get(...)`, hence
  `created_at`/`completed_at` are `Option` fields whose presence mirrors the
  truthiness checks in the source.
* Every `find(...).to_list(1000)` call returns at most 1000 documents; this is
  modelled by `List.take 1000` after the filter.  `count_documents` counts the
  whole collection with no cap.
* `find_one` returns the first matching document; `update_one` with `$set`
  rewrites the first matching document.
-/

namespace App

/-- The `TaskStatus` enum of server.py. -/
inductive TaskStatus where
  | TODO
  | IN_PROGRESS
  | IN_REVIEW
  | DONE
deriving DecidableEq

/-- The `TaskPriority` enum of server.py. -/
inductive TaskPriority where
  | LOW
  | MEDIUM
  | HIGH
  | CRITICAL
deriving DecidableEq

/-- Timestamps: seconds since an arbitrary epoch, as exact rationals. -/
abbrev Timestamp := ℚ

/-- A stored `users` document (pydantic model `User`). -/
structure User where
  id : String
  name : String
  email : String
  avatar_color : String
  created_at : Timestamp
deriving DecidableEq

/-- A stored `projects` document (pydantic model `Project`). -/
structure Project where
  id : String
  name : String
  description : String
  owner_id : String
  created_at : Timestamp
  updated_at : Timestamp
deriving DecidableEq

/-- A stored `tasks` document (pydantic model `Task`).  `created_at` and
`completed_at` are optional because the metrics handlers access the raw
document with `task.get(...)` and test presence. -/
structure Task where
  id : String
  title : String
  description : String
  project_id : String
  assigned_to : Option String
  status : TaskStatus
  priority : TaskPriority
  created_at : Option Timestamp
  updated_at : Timestamp
  completed_at : Option Timestamp
deriving DecidableEq

/-- Request body of `POST /tasks` (pydantic model `TaskCreate`).  `priority`
is `none` when the field is omitted; pydantic then applies the default
`MEDIUM`. -/
structure TaskCreate where
  title : String
  description : String
  project_id : String
  assigned_to : Option String
  priority : Option TaskPriority
deriving DecidableEq

/-- Request body of `PUT /tasks/{id}` (pydantic model `TaskUpdate`); every
field is optional and `none` means absent-or-null. -/
structure TaskUpdate where
  title : Option String
  description : Option String
  assigned_to : Option String
  status : Option TaskStatus
  priority : Option TaskPriority
deriving DecidableEq

/-- Request body of `PUT /users/{id}` (pydantic model `UserUpdate`). -/
structure UserUpdate where
  name : Option String
  email : Option String
  avatar_color : Option String
deriving DecidableEq

/-- Request body of `PUT /projects/{id}` (pydantic model `ProjectUpdate`). -/
structure ProjectUpdate where
  name : Option String
  description : Option String
deriving DecidableEq

/-- Response model `ProjectMetrics`. -/
structure ProjectMetrics where
  total_tasks : ℕ
  completed_tasks : ℕ
  in_progress_tasks : ℕ
  todo_tasks : ℕ
  average_completion_time_days : Option ℚ
  completion_rate : ℚ
deriving DecidableEq

/-- Response model `OverviewMetrics`. -/
structure OverviewMetrics where
  total_projects : ℕ
  total_tasks : ℕ
  total_users : ℕ
  completed_tasks : ℕ
  average_completion_time_days : Option ℚ
deriving DecidableEq

/-- The error taxonomy: `HTTPException(status_code=404, detail=...)`. -/
inductive ApiError where
  | notFound (entity : String)
deriving DecidableEq

/-- The four MongoDB collections (comments are irrelevant to the claims and
omitted). -/
structure Store where
  users : List User
  projects : List Project
  tasks : List Task
deriving DecidableEq

/-- `round(x, 2)`: round to 2 decimal places. -/
def round2 (q : ℚ) : ℚ := (round (q * 100) : ℤ) / 100

/-- `update_one({"id": i}, {"$set": ...})`: rewrite the first matching
element of the collection. -/
def updateFirst (p : α → Bool) (f : α → α) : List α → List α
  | [] => []
  | x :: xs => if p x then f x :: xs else x :: updateFirst p f xs

/-- `db.tasks.find({"project_id": pid}).to_list(1000)` (server.py line 386). -/
def projectTasks (st : Store) (pid : String) : List Task :=
  (st.tasks.filter fun t => t.project_id = pid).take 1000

/-- `db.tasks.find({"status": "DONE"}).to_list(1000)` (server.py line 421). -/
def doneTasks (st : Store) : List Task :=
  (st.tasks.filter fun t => t.status = TaskStatus.DONE).take 1000

/-- The completion-times loop (server.py lines 394-400 and 425-431): for every
task whose `completed_at` and `created_at` are both present, the elapsed days
`(completed_at - created_at).total_seconds() / 86400`. -/
def completionTimes (tasks : List Task) : List ℚ :=
  tasks.filterMap fun t =>
    match t.completed_at, t.created_at with
    | some c, some cr => some ((c - cr) / 86400)
    | _, _ => none

/-- `sum(xs) / len(xs) if xs else None` (server.py lines 402 and 433). -/
def listAvg (ts : List ℚ) : Option ℚ :=
  match ts with
  | [] => none
  | _ => some (ts.sum / (ts.length : ℚ))

/-- `round(avg, 2) if avg else None` (server.py lines 410 and 440): Python
truthiness sends both `None` and `0.0` to `None`. -/
def avgField (avg : Option ℚ) : Option ℚ :=
  match avg with
  | none => none
  | some a => if a = 0 then none else some (round2 a)

/-- `GET /metrics/project/{project_id}` (server.py lines 378-412). -/
def get_project_metrics (st : Store) (project_id : String) :
    Except ApiError ProjectMetrics :=
  match st.projects.find? (fun p => p.id = project_id) with
  | none => Except.error (ApiError.notFound "Project")
  | some _ =>
    let tasks := projectTasks st project_id
    let total_tasks := tasks.length
    let completed_tasks := (tasks.filter fun t => t.status = TaskStatus.DONE).length
    let in_progress_tasks :=
      (tasks.filter fun t => t.status = TaskStatus.IN_PROGRESS).length
    let todo_tasks := (tasks.filter fun t => t.status = TaskStatus.TODO).length
    let completion_rate : ℚ :=
      if 0 < total_tasks then (completed_tasks : ℚ) / (total_tasks : ℚ) * 100 else 0
    Except.ok
      { total_tasks := total_tasks
        completed_tasks := completed_tasks
        in_progress_tasks := in_progress_tasks
        todo_tasks := todo_tasks
        average_completion_time_days := avgField (listAvg (completionTimes tasks))
        completion_rate := round2 completion_rate }

/-- `GET /metrics/overview` (server.py lines 414-441).  The three totals use
`count_documents` (uncapped); the completed list is capped at 1000. -/
def get_overview_metrics (st : Store) : OverviewMetrics :=
  let completed_tasks_list := doneTasks st
  { total_projects := st.projects.length
    total_tasks := st.tasks.length
    total_users := st.users.length
    completed_tasks := completed_tasks_list.length
    average_completion_time_days :=
      avgField (listAvg (completionTimes completed_tasks_list)) }

/-- True when `{k: v for k, v in upd.model_dump().items() if v is not None}`
is the empty dict. -/
def TaskUpdate.isEmpty (upd : TaskUpdate) : Bool :=
  upd.title.isNone && upd.description.isNone && upd.assigned_to.isNone &&
    upd.status.isNone && upd.priority.isNone

/-- The field merge of `PUT /tasks/{id}` (server.py lines 296-308): apply the
non-null request fields over the stored document; when at least one field is
present, stamp `updated_at` and derive `completed_at` from a requested
`status`. -/
def applyTaskUpdate (t : Task) (upd : TaskUpdate) (now : Timestamp) : Task :=
  if upd.isEmpty then t
  else
    { t with
      title := upd.title.getD t.title
      description := upd.description.getD t.description
      assigned_to := upd.assigned_to.or t.assigned_to
      status := upd.status.getD t.status
      priority := upd.priority.getD t.priority
      updated_at := now
      completed_at :=
        match upd.status with
        | some TaskStatus.DONE => some now
        | some _ => none
        | none => t.completed_at }

/-- `PUT /tasks/{task_id}` (server.py lines 290-310). -/
def update_task (st : Store) (task_id : String) (upd : TaskUpdate)
    (now : Timestamp) : Store × Except ApiError Task :=
  match st.tasks.find? (fun t => t.id = task_id) with
  | none => (st, Except.error (ApiError.notFound "Task"))
  | some t =>
    let t2 := applyTaskUpdate t upd now
    ({ st with tasks := updateFirst (fun x => x.id = task_id) (fun _ => t2) st.tasks },
      Except.ok t2)

/-- The derived-field computation of `PATCH /tasks/{id}/status` (server.py
lines 318-329). -/
def applyTaskStatusUpdate (t : Task) (s : TaskStatus) (now : Timestamp) : Task :=
  { t with
    status := s
    updated_at := now
    completed_at := if s = TaskStatus.DONE then some now else none }

/-- `PATCH /tasks/{task_id}/status` (server.py lines 312-331). -/
def update_task_status (st : Store) (task_id : String) (s : TaskStatus)
    (now : Timestamp) : Store × Except ApiError Task :=
  match st.tasks.find? (fun t => t.id = task_id) with
  | none => (st, Except.error (ApiError.notFound "Task"))
  | some t =>
    let t2 := applyTaskStatusUpdate t s now
    ({ st with tasks := updateFirst (fun x => x.id = task_id) (fun _ => t2) st.tasks },
      Except.ok t2)

/-- The field merge of `PUT /users/{id}` (server.py lines 184-188): only
non-null request fields override; no timestamp is stamped. -/
def applyUserUpdate (u : User) (upd : UserUpdate) : User :=
  { u with
    name := upd.name.getD u.name
    email := upd.email.getD u.email
    avatar_color := upd.avatar_color.getD u.avatar_color }

/-- `PUT /users/{user_id}` (server.py lines 178-189). -/
def update_user (st : Store) (user_id : String) (upd : UserUpdate) :
    Store × Except ApiError User :=
  match st.users.find? (fun u => u.id = user_id) with
  | none => (st, Except.error (ApiError.notFound "User"))
  | some u =>
    let u2 := applyUserUpdate u upd
    ({ st with users := updateFirst (fun x => x.id = user_id) (fun _ => u2) st.users },
      Except.ok u2)

/-- True when the project update dict is empty. -/
def ProjectUpdate.isEmpty (upd : ProjectUpdate) : Bool :=
  upd.name.isNone && upd.description.isNone

/-- The field merge of `PUT /projects/{id}` (server.py lines 229-233): only
non-null request fields override; `updated_at` is stamped when at least one
field is present. -/
def applyProjectUpdate (p : Project) (upd : ProjectUpdate) (now : Timestamp) :
    Project :=
  if upd.isEmpty then p
  else
    { p with
      name := upd.name.getD p.name
      description := upd.description.getD p.description
      updated_at := now }

/-- `PUT /projects/{project_id}` (server.py lines 223-235). -/
def update_project (st : Store) (project_id : String) (upd : ProjectUpdate)
    (now : Timestamp) : Store × Except ApiError Project :=
  match st.projects.find? (fun p => p.id = project_id) with
  | none => (st, Except.error (ApiError.notFound "Project"))
  | some p =>
    let p2 := applyProjectUpdate p upd now
    ({ st with
        projects := updateFirst (fun x => x.id = project_id) (fun _ => p2) st.projects },
      Except.ok p2)

/-- `Task(**task_data.model_dump())` (server.py line 261): the pydantic
defaults give status TODO, priority MEDIUM when omitted, fresh timestamps and
a null `completed_at`. -/
def mkTask (task_data : TaskCreate) (newId : String) (now : Timestamp) : Task :=
  { id := newId
    title := task_data.title
    description := task_data.description
    project_id := task_data.project_id
    assigned_to := task_data.assigned_to
    status := TaskStatus.TODO
    priority := task_data.priority.getD TaskPriority.MEDIUM
    created_at := some now
    updated_at := now
    completed_at := none }

/-- `POST /tasks` (server.py lines 248-264).  The assignee check mirrors the
Python truthiness test `if task_data.assigned_to:` (an empty string skips the
check). -/
def create_task (st : Store) (task_data : TaskCreate) (newId : String)
    (now : Timestamp) : Store × Except ApiError Task :=
  match st.projects.find? (fun p => p.id = task_data.project_id) with
  | none => (st, Except.error (ApiError.notFound "Project"))
  | some _ =>
    if task_data.assigned_to.getD "" ≠ "" ∧
        (st.users.find? (fun u => u.id = task_data.assigned_to.getD "")).isNone = true
    then (st, Except.error (ApiError.notFound "Assigned user"))
    else
      let t := mkTask task_data newId now
      ({ st with tasks := st.tasks ++ [t] }, Except.ok t)

/-- The `TaskUpdate` carrying only a status, as sent by a client that uses the
general update path purely for a status change. -/
def statusOnlyUpdate (s : TaskStatus) : TaskUpdate :=
  { title := none, description := none, assigned_to := none,
    status := some s, priority := none }

/-! ### Concrete fixtures used by witnesses and counterexamples -/

/-- A sample user. -/
def exUser : User :=
  { id := "u", name := "n", email := "e@x.io", avatar_color := "c", created_at := 0 }

/-- A sample project with id `p`. -/
def exProject : Project :=
  { id := "p", name := "P", description := "d", owner_id := "u",
    created_at := 0, updated_at := 0 }

/-- A DONE task whose `completed_at` equals its `created_at` (elapsed time
exactly zero). -/
def taskZero : Task :=
  { id := "t1", title := "T", description := "d", project_id := "p",
    assigned_to := none, status := TaskStatus.DONE, priority := TaskPriority.MEDIUM,
    created_at := some 0, updated_at := 0, completed_at := some 0 }

/-- A TODO task with no completion timestamp. -/
def taskTodo : Task :=
  { id := "t2", title := "T", description := "d", project_id := "p",
    assigned_to := none, status := TaskStatus.TODO, priority := TaskPriority.MEDIUM,
    created_at := some 0, updated_at := 0, completed_at := none }

/-- A DONE task completed exactly one day after creation. -/
def taskDone : Task :=
  { id := "t3", title := "T", description := "d", project_id := "p",
    assigned_to := none, status := TaskStatus.DONE, priority := TaskPriority.MEDIUM,
    created_at := some 0, updated_at := 0, completed_at := some 86400 }

/-- A task that was completed and then moved back to IN_PROGRESS without a
status-affecting write clearing its timestamps (both timestamps present,
status not DONE). -/
def taskReopened : Task :=
  { id := "t4", title := "T", description := "d", project_id := "p",
    assigned_to := none, status := TaskStatus.IN_PROGRESS,
    priority := TaskPriority.MEDIUM,
    created_at := some 0, updated_at := 0, completed_at := some 86400 }

/-- Store with the zero-elapsed DONE task. -/
def exSt1 : Store := { users := [exUser], projects := [exProject], tasks := [taskZero] }

/-- Store with a single TODO task. -/
def exSt2 : Store := { users := [exUser], projects := [exProject], tasks := [taskTodo] }

/-- Store with 1001 identical DONE tasks in project `p`. -/
def exSt3 : Store :=
  { users := [exUser], projects := [exProject], tasks := List.replicate 1001 taskDone }

/-- Store with the reopened task. -/
def exSt6 : Store :=
  { users := [exUser], projects := [exProject], tasks := [taskReopened] }

/-- Store with a project and no tasks or users. -/
def exStP : Store := { users := [], projects := [exProject], tasks := [] }

/-- The empty store. -/
def exSt0 : Store := { users := [], projects := [], tasks := [] }

/-- A sample creation request that omits `priority` and `assigned_to`. -/
def exTC : TaskCreate :=
  { title := "T", description := "d", project_id := "p",
    assigned_to := none, priority := none }

/-- The empty task update (all fields absent). -/
def emptyTaskUpdate : TaskUpdate :=
  { title := none, description := none, assigned_to := none,
    status := none, priority := none }

/-- The empty user update. -/
def emptyUserUpdate : UserUpdate := { name := none, email := none, avatar_color := none }

/-- The empty project update. -/
def emptyProjectUpdate : ProjectUpdate := { name := none, description := none }

/-- The metrics record that `get_project_metrics` returns on `exSt1`. -/
def exM1 : ProjectMetrics :=
  { total_tasks := 1, completed_tasks := 1, in_progress_tasks := 0, todo_tasks := 0,
    average_completion_time_days := none, completion_rate := 100 }

/-- The metrics record that `get_project_metrics` returns on `exSt2`. -/
def exM2 : ProjectMetrics :=
  { total_tasks := 1, completed_tasks := 0, in_progress_tasks := 0, todo_tasks := 1,
    average_completion_time_days := none, completion_rate := 0 }

/-! ### Helper lemmas -/

/-- Unfolding lemma: a successful per-project metrics call returns exactly the
aggregation over `projectTasks`. -/
lemma get_project_metrics_ok {st : Store} {pid : String} {m : ProjectMetrics}
    (h : get_project_metrics st pid = Except.ok m) :
    m = { total_tasks := (projectTasks st pid).length
          completed_tasks :=
            ((projectTasks st pid).filter fun t => t.status = TaskStatus.DONE).length
          in_progress_tasks :=
            ((projectTasks st pid).filter fun t => t.status = TaskStatus.IN_PROGRESS).length
          todo_tasks :=
            ((projectTasks st pid).filter fun t => t.status = TaskStatus.TODO).length
          average_completion_time_days :=
            avgField (listAvg (completionTimes (projectTasks st pid)))
          completion_rate := round2
            (if 0 < (projectTasks st pid).length then
              (((projectTasks st pid).filter fun t =>
                  t.status = TaskStatus.DONE).length : ℚ) /
                ((projectTasks st pid).length : ℚ) * 100
            else 0) } := by
  unfold get_project_metrics at h
  cases hf : st.projects.find? (fun p => p.id = pid) <;> rw [hf] at h
  · exact Except.noConfusion h
  · exact (Except.ok.inj h).symm

/-- `avgField (listAvg ts)` in closed form. -/
lemma avgField_listAvg (ts : List ℚ) :
    avgField (listAvg ts) =
      if ts = [] ∨ ts.sum / (ts.length : ℚ) = 0 then none
      else some (round2 (ts.sum / (ts.length : ℚ))) := by
  cases ts with
  | nil => simp [listAvg, avgField]
  | cons x xs =>
    by_cases hz : (x :: xs : List ℚ).sum / (((x :: xs : List ℚ).length : ℕ) : ℚ) = 0 <;>
      simp [listAvg, avgField, hz]

/-- `round` is monotone. -/
lemma round_mono_q {a b : ℚ} (h : a ≤ b) : round a ≤ round b := by
  rw [round_eq, round_eq]
  exact Int.floor_mono (by linarith)

/-- `round2` is monotone. -/
lemma round2_mono {a b : ℚ} (h : a ≤ b) : round2 a ≤ round2 b := by
  unfold round2
  have h1 : round (a * 100) ≤ round (b * 100) := round_mono_q (by linarith)
  have h2 : ((round (a * 100) : ℤ) : ℚ) ≤ ((round (b * 100) : ℤ) : ℚ) :=
    Int.cast_le.mpr h1
  linarith

/-- `round2 0 = 0`. -/
lemma round2_zero : round2 0 = 0 := by simp [round2]

/-- `round2 100 = 100`. -/
lemma round2_hundred : round2 100 = 100 := by
  unfold round2
  norm_num

/-- `round2` of a rational at least `1/10` is positive. -/
lemma round2_pos {a : ℚ} (h : 1 / 10 ≤ a) : 0 < round2 a := by
  unfold round2
  have h10 : (10 : ℤ) ≤ round (a * 100) := by
    rw [round_eq]
    exact Int.le_floor.mpr (by push_cast; linarith)
  have : (10 : ℚ) ≤ ((round (a * 100) : ℤ) : ℚ) := by exact_mod_cast h10
  linarith

/-- Disjoint status filters: the three named buckets cannot outnumber the
list. -/
lemma filter_status_three_le (l : List Task) :
    (l.filter fun t => t.status = TaskStatus.TODO).length +
      (l.filter fun t => t.status = TaskStatus.IN_PROGRESS).length +
      (l.filter fun t => t.status = TaskStatus.DONE).length ≤ l.length := by
  induction l with
  | nil => simp
  | cons x xs ih =>
    cases hx : x.status <;> simp [List.filter_cons, hx] <;> omega

/-- The general task update restricted to a status-only body coincides with
the dedicated status update. -/
lemma applyTaskUpdate_statusOnly (t : Task) (s : TaskStatus) (now : Timestamp) :
    applyTaskUpdate t (statusOnlyUpdate s) now = applyTaskStatusUpdate t s now := by
  cases s <;> rfl

/-- Evaluation: the per-project metrics of `exSt1` (one DONE task with zero
elapsed time) — note the null average despite a non-empty considered set. -/
lemma exSt1_metrics : get_project_metrics exSt1 "p" = Except.ok exM1 := by
  simp [get_project_metrics, exSt1, exM1, exProject, exUser, taskZero, projectTasks,
    completionTimes, listAvg, avgField, round2]
  norm_num

/-- Evaluation: the per-project metrics of `exSt2` (one TODO task). -/
lemma exSt2_metrics : get_project_metrics exSt2 "p" = Except.ok exM2 := by
  simp [get_project_metrics, exSt2, exM2, exProject, exUser, taskTodo, projectTasks,
    completionTimes, listAvg, avgField, round2]

/-- Nullness of the serialized average: empty considered set or zero mean. -/
lemma avgField_listAvg_none_iff (ts : List ℚ) :
    avgField (listAvg ts) = none ↔ ts = [] ∨ ts.sum / (ts.length : ℚ) = 0 := by
  rw [avgField_listAvg]; split <;> simp_all

/-- A non-null serialized average is the rounded mean. -/
lemma avgField_listAvg_some (ts : List ℚ) (a : ℚ) (h : avgField (listAvg ts) = some a) :
    a = round2 (ts.sum / (ts.length : ℚ)) := by
  rw [avgField_listAvg] at h
  split at h <;> simp_all

/-! ### Claims -/

/-- Claim C1, counterexample: the claim asserts `average_completion_time_days`
is null exactly when the considered set (tasks with both timestamps present)
is empty.  On `exSt1` the considered set is the single elapsed-day value `0`
(non-empty), yet the code returns null, because line 410 of server.py tests
Python truthiness (`if avg_completion_time`), which treats the mean `0.0`
like `None`. -/
theorem C1_counterexample :
    get_project_metrics exSt1 "p" = Except.ok exM1 ∧
      exM1.average_completion_time_days = none ∧
      completionTimes (projectTasks exSt1 "p") = [(0 : ℚ)] := by
  refine ⟨exSt1_metrics, rfl, ?_⟩
  simp [completionTimes, projectTasks, exSt1, taskZero]

/-- Claim C1, amended: in both the per-project and the overview computation,
`average_completion_time_days` is null iff the considered set is empty or the
arithmetic mean of its elapsed-day values is exactly zero; any non-null value
is the mean rounded to 2 decimal places. -/
theorem C1_amended_avg (st : Store) (pid : String) (m : ProjectMetrics)
    (h : get_project_metrics st pid = Except.ok m) :
    (m.average_completion_time_days = none ↔
      completionTimes (projectTasks st pid) = [] ∨
        (completionTimes (projectTasks st pid)).sum /
          ((completionTimes (projectTasks st pid)).length : ℚ) = 0) ∧
    (∀ a, m.average_completion_time_days = some a →
      a = round2 ((completionTimes (projectTasks st pid)).sum /
        ((completionTimes (projectTasks st pid)).length : ℚ))) ∧
    ((get_overview_metrics st).average_completion_time_days = none ↔
      completionTimes (doneTasks st) = [] ∨
        (completionTimes (doneTasks st)).sum /
          ((completionTimes (doneTasks st)).length : ℚ) = 0) ∧
    (∀ a, (get_overview_metrics st).average_completion_time_days = some a →
      a = round2 ((completionTimes (doneTasks st)).sum /
        ((completionTimes (doneTasks st)).length : ℚ))) := by
  have hm := get_project_metrics_ok h
  have h1 : m.average_completion_time_days =
      avgField (listAvg (completionTimes (projectTasks st pid))) := by rw [hm]
  have h2 : (get_overview_metrics st).average_completion_time_days =
      avgField (listAvg (completionTimes (doneTasks st))) := rfl
  refine ⟨?_, ?_, ?_, ?_⟩
  · rw [h1]; exact avgField_listAvg_none_iff _
  · intro a ha; rw [h1] at ha; exact avgField_listAvg_some _ _ ha
  · rw [h2]; exact avgField_listAvg_none_iff _
  · intro a ha; rw [h2] at ha; exact avgField_listAvg_some _ _ ha

/-- Witness for the amended claim C1 at the concrete store `exSt1`. -/
theorem C1_amended_witness :
    exM1.average_completion_time_days = none ↔
      completionTimes (projectTasks exSt1 "p") = [] ∨
        (completionTimes (projectTasks exSt1 "p")).sum /
          ((completionTimes (projectTasks exSt1 "p")).length : ℚ) = 0 :=
  (C1_amended_avg exSt1 "p" exM1 exSt1_metrics).1

/-- Claim C2, counterexample: the claim asserts `completion_rate = 0` exactly
when `total_tasks = 0`.  On `exSt2` (one TODO task) the code returns
`completion_rate = 0` with `total_tasks = 1`. -/
theorem C2_counterexample :
    get_project_metrics exSt2 "p" = Except.ok exM2 ∧
      exM2.total_tasks = 1 ∧ exM2.completion_rate = 0 :=
  ⟨exSt2_metrics, rfl, rfl⟩

/-- Claim C2, amended: per-project `completion_rate` is
`completed_tasks / total_tasks × 100` rounded to 2 decimal places, lies in
`[0, 100]`, is exactly 0 (not null) when `total_tasks = 0`, and equals 0
exactly when `completed_tasks = 0` (rather than exactly when
`total_tasks = 0`).  The forward direction of the iff uses the 1000-record
scan cap: with at most 1000 tasks a non-zero count cannot round down to 0. -/
theorem C2_amended_rate (st : Store) (pid : String) (m : ProjectMetrics)
    (h : get_project_metrics st pid = Except.ok m) :
    m.completion_rate = round2 (if 0 < m.total_tasks then
        (m.completed_tasks : ℚ) / (m.total_tasks : ℚ) * 100 else 0) ∧
    0 ≤ m.completion_rate ∧ m.completion_rate ≤ 100 ∧
    (m.total_tasks = 0 → m.completion_rate = 0) ∧
    (m.completion_rate = 0 ↔ m.completed_tasks = 0) := by
  have hm := get_project_metrics_ok h
  have hrate : m.completion_rate = round2
      (if 0 < (projectTasks st pid).length then
        (((projectTasks st pid).filter fun t => t.status = TaskStatus.DONE).length : ℚ) /
          ((projectTasks st pid).length : ℚ) * 100
      else 0) := by rw [hm]
  have hcomp : m.completed_tasks =
      ((projectTasks st pid).filter fun t => t.status = TaskStatus.DONE).length := by rw [hm]
  have htot : m.total_tasks = (projectTasks st pid).length := by rw [hm]
  have hcn : ((projectTasks st pid).filter fun t => t.status = TaskStatus.DONE).length ≤
      (projectTasks st pid).length := List.length_filter_le _ _
  have hn1000 : (projectTasks st pid).length ≤ 1000 := by
    unfold projectTasks
    rw [List.length_take 1000 (st.tasks.filter fun t => t.project_id = pid)]
    exact min_le_left _ _
  set c := ((projectTasks st pid).filter fun t => t.status = TaskStatus.DONE).length with hcdef
  set n := (projectTasks st pid).length with hndef
  have h0r : (0 : ℚ) ≤ if 0 < n then (c : ℚ) / (n : ℚ) * 100 else 0 := by
    split
    · positivity
    · exact le_refl 0
  have hr100 : (if 0 < n then (c : ℚ) / (n : ℚ) * 100 else 0) ≤ 100 := by
    split
    · rename_i hn0
      have hn0q : (0 : ℚ) < (n : ℚ) := by exact_mod_cast hn0
      have : (c : ℚ) / (n : ℚ) ≤ 1 := (div_le_one hn0q).mpr (by exact_mod_cast hcn)
      nlinarith
    · norm_num
  refine ⟨by rw [hrate, hcomp, htot], ?_, ?_, ?_, ?_⟩
  · rw [hrate]
    have := round2_mono h0r
    rwa [round2_zero] at this
  · rw [hrate]
    have := round2_mono hr100
    rwa [round2_hundred] at this
  · intro h0
    rw [htot] at h0
    rw [hrate, h0]
    simp [round2_zero]
  · constructor
    · intro hz
      rw [hcomp]
      by_contra hc0
      have hc1 : 1 ≤ c := Nat.one_le_iff_ne_zero.mpr hc0
      have hn0 : 0 < n := lt_of_lt_of_le hc1 hcn
      have hc1q : (1 : ℚ) ≤ (c : ℚ) := by exact_mod_cast hc1
      have hn0q : (0 : ℚ) < (n : ℚ) := by exact_mod_cast hn0
      have hnq : (n : ℚ) ≤ 1000 := by exact_mod_cast hn1000
      have hge : (1 : ℚ) / 10 ≤ (c : ℚ) / (n : ℚ) * 100 := by
        rw [div_mul_eq_mul_div, le_div_iff₀ hn0q]
        nlinarith
      have hpos := round2_pos hge
      rw [hrate, if_pos hn0] at hz
      rw [hz] at hpos
      exact lt_irrefl 0 hpos
    · intro hc0
      rw [hcomp] at hc0
      rw [hrate]
      rcases Nat.eq_zero_or_pos n with hn0 | hn0
      · rw [hn0]
        simp [round2_zero]
      · rw [if_pos hn0, hc0]
        simp [round2_zero]

/-- Witness for the amended claim C2 at the concrete store `exSt2`. -/
theorem C2_amended_witness :
    exM2.completion_rate = 0 ↔ exM2.completed_tasks = 0 :=
  (C2_amended_rate exSt2 "p" exM2 exSt2_metrics).2.2.2.2

set_option maxRecDepth 40000 in
/-- Claim C3, counterexample: the claim asserts the metrics aggregate over
the complete matching collection for a collection of any size, but every scan
ends in `.to_list(1000)`.  With 1001 matching DONE tasks, the per-project
metrics report `total_tasks = 1000` and the overview reports
`completed_tasks = 1000`. -/
theorem C3_counterexample :
    (get_project_metrics exSt3 "p").toOption.map ProjectMetrics.total_tasks = some 1000 ∧
      (exSt3.tasks.filter fun t => t.project_id = "p").length = 1001 ∧
      (get_overview_metrics exSt3).completed_tasks = 1000 ∧
      (exSt3.tasks.filter fun t => t.status = TaskStatus.DONE).length = 1001 := by
  refine ⟨?_, ?_, ?_, ?_⟩ <;> decide

/-- Claim C3, amended: whenever the matching collection holds at most 1000
tasks (the `to_list(1000)` cap), the per-project metrics are computed over
exactly the complete set of tasks with matching `project_id`, and whenever at
most 1000 tasks are DONE the overview aggregates over exactly the tasks with
status DONE. -/
theorem C3_amended_full_scan (st : Store) (pid : String) (m : ProjectMetrics)
    (h : get_project_metrics st pid = Except.ok m)
    (hlen : (st.tasks.filter fun t => t.project_id = pid).length ≤ 1000)
    (hdone : (st.tasks.filter fun t => t.status = TaskStatus.DONE).length ≤ 1000) :
    m.total_tasks = (st.tasks.filter fun t => t.project_id = pid).length ∧
    m.completed_tasks = ((st.tasks.filter fun t => t.project_id = pid).filter
        fun t => t.status = TaskStatus.DONE).length ∧
    m.in_progress_tasks = ((st.tasks.filter fun t => t.project_id = pid).filter
        fun t => t.status = TaskStatus.IN_PROGRESS).length ∧
    m.todo_tasks = ((st.tasks.filter fun t => t.project_id = pid).filter
        fun t => t.status = TaskStatus.TODO).length ∧
    m.average_completion_time_days =
      avgField (listAvg (completionTimes (st.tasks.filter fun t => t.project_id = pid))) ∧
    (get_overview_metrics st).completed_tasks =
      (st.tasks.filter fun t => t.status = TaskStatus.DONE).length ∧
    (get_overview_metrics st).average_completion_time_days =
      avgField (listAvg (completionTimes
        (st.tasks.filter fun t => t.status = TaskStatus.DONE))) := by
  have hm := get_project_metrics_ok h
  have htake : projectTasks st pid = st.tasks.filter fun t => t.project_id = pid := by
    unfold projectTasks
    exact List.take_of_length_le hlen
  have hdtake : doneTasks st = st.tasks.filter fun t => t.status = TaskStatus.DONE := by
    unfold doneTasks
    exact List.take_of_length_le hdone
  refine ⟨?_, ?_, ?_, ?_, ?_, ?_, ?_⟩
  · rw [hm, htake]
  · rw [hm, htake]
  · rw [hm, htake]
  · rw [hm, htake]
  · rw [hm, htake]
  · show (doneTasks st).length = _
    rw [hdtake]
  · show avgField (listAvg (completionTimes (doneTasks st))) = _
    rw [hdtake]

/-- Witness for the amended claim C3 at the concrete store `exSt2`. -/
theorem C3_amended_witness :
    exM2.total_tasks = (exSt2.tasks.filter fun t => t.project_id = "p").length :=
  (C3_amended_full_scan exSt2 "p" exM2 exSt2_metrics (by decide) (by decide)).1

/-- Claim C4: on every status-affecting write — a general update whose body
carries a status, or the dedicated status operation — a requested DONE sets
`completed_at` to the write timestamp and any other requested status clears
it to null, in both cases regardless of the previous status and previous
`completed_at` (the task `t` is arbitrary); and no transition is rejected:
the resulting status is always the requested one. -/
theorem C4_status_transition (t : Task) (tu : TaskUpdate) (s : TaskStatus)
    (now : Timestamp) (h : tu.status = some s) :
    ((applyTaskUpdate t tu now).status = s ∧
      (applyTaskUpdate t tu now).completed_at =
        (if s = TaskStatus.DONE then some now else none)) ∧
    ((applyTaskStatusUpdate t s now).status = s ∧
      (applyTaskStatusUpdate t s now).completed_at =
        (if s = TaskStatus.DONE then some now else none)) := by
  have hne : tu.isEmpty = false := by
    simp [TaskUpdate.isEmpty, h]
  constructor
  · rw [applyTaskUpdate, hne]
    simp only [Bool.false_eq_true, if_false, h]
    cases s <;> simp
  · constructor <;> simp [applyTaskStatusUpdate]

/-- Witness for claim C4: marking a TODO task DONE (via either path) stamps
`completed_at` with the write time. -/
theorem C4_witness :
    ((applyTaskUpdate taskTodo (statusOnlyUpdate TaskStatus.DONE) 7).status = TaskStatus.DONE ∧
      (applyTaskUpdate taskTodo (statusOnlyUpdate TaskStatus.DONE) 7).completed_at =
        (if TaskStatus.DONE = TaskStatus.DONE then some 7 else none)) ∧
    ((applyTaskStatusUpdate taskTodo TaskStatus.DONE 7).status = TaskStatus.DONE ∧
      (applyTaskStatusUpdate taskTodo TaskStatus.DONE 7).completed_at =
        (if TaskStatus.DONE = TaskStatus.DONE then some 7 else none)) :=
  C4_status_transition taskTodo (statusOnlyUpdate TaskStatus.DONE) TaskStatus.DONE 7 rfl

/-- Claim C5: for every task id, requested status and write time, the general
update endpoint invoked with a status-only body and the dedicated status
endpoint return identical results and leave identical stores; on any stored
task the merge itself is the same function, refreshing `updated_at` and
deriving `completed_at` (timestamp when DONE, null otherwise). -/
theorem C5_update_paths_agree (st : Store) (task_id : String) (s : TaskStatus)
    (now : Timestamp) (t : Task) :
    update_task st task_id (statusOnlyUpdate s) now = update_task_status st task_id s now ∧
    applyTaskUpdate t (statusOnlyUpdate s) now = applyTaskStatusUpdate t s now ∧
    (applyTaskStatusUpdate t s now).updated_at = now ∧
    (applyTaskStatusUpdate t s now).status = s ∧
    (applyTaskStatusUpdate t s now).completed_at =
      (if s = TaskStatus.DONE then some now else none) := by
  refine ⟨?_, applyTaskUpdate_statusOnly t s now, rfl, rfl, rfl⟩
  unfold update_task update_task_status
  simp only [applyTaskUpdate_statusOnly]

/-- Claim C6: a task carrying both timestamps whose current status is not
DONE contributes its elapsed-day value to the per-project average (the
engine checks only field presence), while the overview excludes it (the
overview aggregates only tasks with status DONE). -/
theorem C6_status_filter_asymmetry (st : Store) (pid : String) (t : Task)
    (c cr : Timestamp) (ht : t ∈ projectTasks st pid)
    (hc : t.completed_at = some c) (hcr : t.created_at = some cr)
    (hs : t.status ≠ TaskStatus.DONE) :
    ((c - cr) / 86400) ∈ completionTimes (projectTasks st pid) ∧
      t ∉ doneTasks st ∧
      t ∉ st.tasks.filter (fun x => x.status = TaskStatus.DONE) := by
  refine ⟨?_, ?_, ?_⟩
  · exact List.mem_filterMap.mpr ⟨t, ht, by rw [hc, hcr]⟩
  · intro hmem
    have h2 : t ∈ st.tasks.filter (fun x => x.status = TaskStatus.DONE) :=
      List.mem_of_mem_take hmem
    have h3 := (List.mem_filter.mp h2).2
    simp at h3
    exact hs h3
  · intro hmem
    have h3 := (List.mem_filter.mp hmem).2
    simp at h3
    exact hs h3

/-- Witness for claim C6 at the reopened task of `exSt6`. -/
theorem C6_witness :
    ((86400 - 0 : ℚ) / 86400) ∈ completionTimes (projectTasks exSt6 "p") ∧
      taskReopened ∉ doneTasks exSt6 ∧
      taskReopened ∉ exSt6.tasks.filter (fun x => x.status = TaskStatus.DONE) :=
  C6_status_filter_asymmetry exSt6 "p" taskReopened 86400 0
    (by simp [projectTasks, exSt6, taskReopened]) rfl rfl (by simp [taskReopened])

/-- Claim C7: the three named buckets count exactly the loaded tasks with
status DONE, IN_PROGRESS and TODO respectively; an IN_REVIEW task is in the
loaded collection (hence counted in `total_tasks`) but in none of the three
buckets; consequently the bucket sum never exceeds `total_tasks`. -/
theorem C7_bucket_counts (st : Store) (pid : String) (m : ProjectMetrics)
    (h : get_project_metrics st pid = Except.ok m) :
    m.completed_tasks =
        ((projectTasks st pid).filter fun t => t.status = TaskStatus.DONE).length ∧
    m.in_progress_tasks =
        ((projectTasks st pid).filter fun t => t.status = TaskStatus.IN_PROGRESS).length ∧
    m.todo_tasks =
        ((projectTasks st pid).filter fun t => t.status = TaskStatus.TODO).length ∧
    m.total_tasks = (projectTasks st pid).length ∧
    (∀ t ∈ projectTasks st pid, t.status = TaskStatus.IN_REVIEW →
      (t ∉ (projectTasks st pid).filter fun x => x.status = TaskStatus.DONE) ∧
      (t ∉ (projectTasks st pid).filter fun x => x.status = TaskStatus.IN_PROGRESS) ∧
      (t ∉ (projectTasks st pid).filter fun x => x.status = TaskStatus.TODO)) ∧
    m.todo_tasks + m.in_progress_tasks + m.completed_tasks ≤ m.total_tasks := by
  have hm := get_project_metrics_ok h
  subst hm
  refine ⟨rfl, rfl, rfl, rfl, ?_, ?_⟩
  · intro t _ hr
    refine ⟨?_, ?_, ?_⟩ <;> intro hmem <;>
      · have h3 := (List.mem_filter.mp hmem).2
        simp [hr] at h3
  · exact filter_status_three_le (projectTasks st pid)

/-- Witness for claim C7 at the concrete store `exSt1`. -/
theorem C7_witness :
    exM1.todo_tasks + exM1.in_progress_tasks + exM1.completed_tasks ≤ exM1.total_tasks :=
  (C7_bucket_counts exSt1 "p" exM1 exSt1_metrics).2.2.2.2.2

/-- Claim C8: across the generic update paths of User, Project and Task,
every request field that is absent or null leaves the corresponding stored
field unchanged (for a task, an absent status also leaves `completed_at`
untouched), and the nullable `assigned_to` field can never be cleared to
null by an update: if the merge result has no assignee, the task had none
before. -/
theorem C8_sparse_update_frame (usr : User) (uu : UserUpdate) (p : Project)
    (pu : ProjectUpdate) (t : Task) (tu : TaskUpdate) (now : Timestamp) :
    (uu.name = none → (applyUserUpdate usr uu).name = usr.name) ∧
    (uu.email = none → (applyUserUpdate usr uu).email = usr.email) ∧
    (uu.avatar_color = none → (applyUserUpdate usr uu).avatar_color = usr.avatar_color) ∧
    (pu.name = none → (applyProjectUpdate p pu now).name = p.name) ∧
    (pu.description = none → (applyProjectUpdate p pu now).description = p.description) ∧
    (tu.title = none → (applyTaskUpdate t tu now).title = t.title) ∧
    (tu.description = none → (applyTaskUpdate t tu now).description = t.description) ∧
    (tu.assigned_to = none → (applyTaskUpdate t tu now).assigned_to = t.assigned_to) ∧
    (tu.status = none → (applyTaskUpdate t tu now).status = t.status ∧
      (applyTaskUpdate t tu now).completed_at = t.completed_at) ∧
    (tu.priority = none → (applyTaskUpdate t tu now).priority = t.priority) ∧
    ((applyTaskUpdate t tu now).assigned_to = none → t.assigned_to = none) := by
  refine ⟨?_, ?_, ?_, ?_, ?_, ?_, ?_, ?_, ?_, ?_, ?_⟩ <;>
    first
      | (intro hx
         first
           | (simp [applyUserUpdate, hx])
           | (unfold applyProjectUpdate
              split <;> simp [hx])
           | (unfold applyTaskUpdate
              split <;> simp [hx]))
      | (intro hx
         unfold applyTaskUpdate at hx
         revert hx
         split <;> intro hx
         · exact hx
         · simp at hx
           rcases h2 : tu.assigned_to with - | v
           · rw [h2] at hx; simpa using hx
           · rw [h2] at hx; simp at hx)

/-- Witness for claim C8: the all-absent update leaves the user name
unchanged. -/
theorem C8_witness :
    (applyUserUpdate exUser emptyUserUpdate).name = exUser.name :=
  (C8_sparse_update_frame exUser emptyUserUpdate exProject emptyProjectUpdate
    taskTodo emptyTaskUpdate 0).1 rfl

/-- Claim C9: updating a User, Project or Task whose id is not in the store
fails with NotFound and returns the store unchanged — no partial write
occurs. -/
theorem C9_update_missing_id_not_found (st : Store) (uid pid tid : String)
    (uu : UserUpdate) (pu : ProjectUpdate) (tu : TaskUpdate) (now : Timestamp)
    (hu : st.users.find? (fun u => u.id = uid) = none)
    (hp : st.projects.find? (fun p => p.id = pid) = none)
    (ht : st.tasks.find? (fun t => t.id = tid) = none) :
    update_user st uid uu = (st, Except.error (ApiError.notFound "User")) ∧
    update_project st pid pu now = (st, Except.error (ApiError.notFound "Project")) ∧
    update_task st tid tu now = (st, Except.error (ApiError.notFound "Task")) := by
  refine ⟨?_, ?_, ?_⟩
  · unfold update_user; rw [hu]
  · unfold update_project; rw [hp]
  · unfold update_task; rw [ht]

/-- Witness for claim C9 on the empty store. -/
theorem C9_witness :
    update_user exSt0 "x" emptyUserUpdate = (exSt0, Except.error (ApiError.notFound "User")) ∧
    update_project exSt0 "x" emptyProjectUpdate 0 =
      (exSt0, Except.error (ApiError.notFound "Project")) ∧
    update_task exSt0 "x" emptyTaskUpdate 0 = (exSt0, Except.error (ApiError.notFound "Task")) :=
  C9_update_missing_id_not_found exSt0 "x" "x" "x" emptyUserUpdate emptyProjectUpdate
    emptyTaskUpdate 0 rfl rfl rfl

/-- Claim C10: every task returned by a successful create starts with status
TODO, null `completed_at`, `created_at` and `updated_at` equal to the write
time, and priority MEDIUM when the request omits priority; such a task
contributes neither a completion time nor a DONE count to the metrics. -/
theorem C10_create_task_defaults (st st2 : Store) (task_data : TaskCreate)
    (newId : String) (now : Timestamp) (t : Task)
    (h : create_task st task_data newId now = (st2, Except.ok t)) :
    t.status = TaskStatus.TODO ∧ t.completed_at = none ∧
      t.created_at = some now ∧ t.updated_at = now ∧
      (task_data.priority = none → t.priority = TaskPriority.MEDIUM) ∧
      completionTimes [t] = [] ∧
      ([t].filter fun x => x.status = TaskStatus.DONE) = [] := by
  unfold create_task at h
  cases hf : st.projects.find? (fun p => p.id = task_data.project_id) <;> rw [hf] at h
  · simp at h
  · by_cases hc : task_data.assigned_to.getD "" ≠ "" ∧
        (st.users.find? (fun u => u.id = task_data.assigned_to.getD "")).isNone = true
    · rw [if_pos hc] at h; simp at h
    · rw [if_neg hc] at h
      simp only [Prod.mk.injEq] at h
      obtain ⟨-, h2⟩ := h
      have ht : t = mkTask task_data newId now := (Except.ok.inj h2).symm
      subst ht
      refine ⟨rfl, rfl, rfl, rfl, ?_, ?_, rfl⟩
      · intro hp; simp [mkTask, hp]
      · simp [completionTimes, mkTask]

/-- Witness for claim C10: creating a task in `exStP` with the sample
request. -/
theorem C10_witness :
    (mkTask exTC "tid" 5).status = TaskStatus.TODO ∧
      (mkTask exTC "tid" 5).completed_at = none ∧
      (mkTask exTC "tid" 5).created_at = some 5 ∧
      (mkTask exTC "tid" 5).updated_at = 5 ∧
      (exTC.priority = none → (mkTask exTC "tid" 5).priority = TaskPriority.MEDIUM) ∧
      completionTimes [mkTask exTC "tid" 5] = [] ∧
      ([mkTask exTC "tid" 5].filter fun x => x.status = TaskStatus.DONE) = [] :=
  C10_create_task_defaults exStP ({ exStP with tasks := [mkTask exTC "tid" 5] }) exTC
    "tid" 5 (mkTask exTC "tid" 5) rfl

end App
